import Mathlib

set_option autoImplicit false

/-!
# Design linter core: shallow embedding

This file embeds the analysis/fix engine of the Figma design-linter plugin
(`src/code.ts`, the simpler constant-based implementation, and
`src/unnamed/part_000`, the token-aware implementation) and proves the
specification claims about it.

Conventions of the embedding:
* Colour channels (JS numbers in [0,1]) are modelled as integers in
  thousandths: every colour literal in the source has at most three decimal
  places, so `0.196` is `196`, `0.5` is `500`, and the per-channel tolerance
  `0.01` of the button rule is exactly `10`. This keeps all colour arithmetic
  exact and kernel-computable. Font sizes are `ℚ` (only ever integers here).
* A JS `Map` is modelled as an association list (`List (String × α)`), with
  `Map.get` as `List.lookup`.
* A node's `fills` property is `Option (List Paint)`: `none` models a node
  that either has no `fills` property or whose `fills` is not an array
  (`figma.mixed`), exactly the `'fills' in node && Array.isArray(node.fills)`
  test of the source.
* `fillStyleId` is a `String`; the source's falsiness test `!node.fillStyleId`
  is the test for the empty string.
* The host document is a lookup function `String → Option Node`
  (`figma.getNodeById`); `figma.loadFontAsync` success is an oracle
  `FontNameV → Bool`; mutations performed by a fix are reported as an explicit
  `NodeMutation` value instead of an in-place assignment.
-/

/-- RGB colour; channels are thousandths of the source's [0,1] scale. -/
structure RGB where
  r : ℤ
  g : ℤ
  b : ℤ
deriving DecidableEq, Repr

/-- Paint kind: the source only distinguishes `'SOLID'` from everything else. -/
inductive PaintType where
  | SOLID
  | OTHER
deriving DecidableEq, Repr

/-- One entry of a node's fill list. -/
structure Paint where
  type : PaintType
  color : RGB
  opacity : ℚ
  visible : Bool
  blendMode : String
deriving DecidableEq, Repr

/-- Node type tags consumed by the source. -/
inductive NodeType where
  | RECTANGLE | ELLIPSE | POLYGON | STAR | VECTOR | TEXT | FRAME
  | COMPONENT | COMPONENT_SET | INSTANCE | GROUP | DOCUMENT | PAGE
deriving DecidableEq, Repr

/-- A single font (family/style pair), the Figma `FontName` record. -/
structure FontNameV where
  family : String
  style : String
deriving DecidableEq, Repr

/-- A node's `fontName` property: a single font, the `figma.mixed` sentinel,
or an array of fonts (the source checks `Array.isArray(node.fontName)`). -/
inductive FontRef where
  | single (f : FontNameV)
  | mixed
  | multiple (fs : List FontNameV)
deriving DecidableEq, Repr

/-- The design-node tree. Fields mirror the attributes the source reads:
`id`, `name`, `type`, `visible`, `locked`, `fills`, `fillStyleId`,
`fontName`, `fontSize`, `children`. `fontSize = none` models a `fontSize`
that is absent or not a number. -/
inductive Node where
  | mk (id name : String) (ty : NodeType) (visible locked : Bool)
       (fills : Option (List Paint)) (fillStyleId : String)
       (fontName : FontRef) (fontSize : Option ℚ)
       (children : List Node)

def Node.id : Node → String
  | .mk i _ _ _ _ _ _ _ _ _ => i

def Node.name : Node → String
  | .mk _ n _ _ _ _ _ _ _ _ => n

def Node.ty : Node → NodeType
  | .mk _ _ t _ _ _ _ _ _ _ => t

def Node.visible : Node → Bool
  | .mk _ _ _ v _ _ _ _ _ _ => v

def Node.locked : Node → Bool
  | .mk _ _ _ _ l _ _ _ _ _ => l

def Node.fills : Node → Option (List Paint)
  | .mk _ _ _ _ _ f _ _ _ _ => f

def Node.fillStyleId : Node → String
  | .mk _ _ _ _ _ _ s _ _ _ => s

def Node.fontName : Node → FontRef
  | .mk _ _ _ _ _ _ _ f _ _ => f

def Node.fontSize : Node → Option ℚ
  | .mk _ _ _ _ _ _ _ _ s _ => s

def Node.children : Node → List Node
  | .mk _ _ _ _ _ _ _ _ _ c => c

/-- `'visible' in node` (equivalently `'locked' in node`): every scene node
has these properties, `DOCUMENT` and `PAGE` nodes do not. -/
def isSceneType (t : NodeType) : Bool :=
  t != NodeType.DOCUMENT && t != NodeType.PAGE

/-- Does the second list start with the first one? (List-based so that the
kernel can evaluate it; the builtin `String` operations use byte-position
recursion that does not reduce.) -/
def listStartsWith : List Char → List Char → Bool
  | [], _ => true
  | _ :: _, [] => false
  | p :: ps, c :: cs => p == c && listStartsWith ps cs

/-- Does `pat` occur as a contiguous sublist of `s`? -/
def listContainsSub (pat s : List Char) : Bool :=
  match s with
  | [] => pat.isEmpty
  | _ :: rest => listStartsWith pat s || listContainsSub pat rest

/-- JS `s.includes(pat)`. -/
def strIncludes (s pat : String) : Bool :=
  listContainsSub pat.data s.data

/-- JS `s.toLowerCase()` (over the character list, so it evaluates). -/
def strToLower (s : String) : String :=
  ⟨s.data.map Char.toLower⟩

/-- JS `s.trim()` (over the character list, so it evaluates). -/
def jsTrim (s : String) : String :=
  ⟨((s.data.dropWhile Char.isWhitespace).reverse.dropWhile Char.isWhitespace).reverse⟩

/-- The issue record produced by the rules. -/
structure DesignIssue where
  type : String
  layer : String
  nodeId : String
  detail : String
  fixable : Bool
deriving DecidableEq, Repr

/-- Text-style token record (`CustomTextStyle` in the source). -/
structure CustomTextStyle where
  fontFamily : String
  fontSize : ℚ
  fontWeight : ℚ
  lineHeight : ℚ
  letterSpacing : ℚ
  textCase : Option String := none
deriving DecidableEq, Repr

/-- Coarse component classification (`ComponentToken['type']`). -/
inductive ComponentKind where
  | button | input | card | text | other
deriving DecidableEq, Repr

/-- Component token record. -/
structure ComponentToken where
  name : String
  type : ComponentKind
  requiredProperties : List String
  allowedVariants : List String
deriving DecidableEq, Repr

/-- The token store (`DesignSystemConfig` in the source). JS `Map`s are
association lists; `Map.get` is `List.lookup`. -/
structure DesignSystemConfig where
  colourTokens : List (String × RGB)
  textStyles : List (String × CustomTextStyle)
  spacingTokens : List (String × ℚ)
  componentTokens : List (String × ComponentToken)
deriving DecidableEq, Repr

def DEFAULT_CONFIG : DesignSystemConfig :=
  { colourTokens := [], textStyles := [], spacingTokens := [], componentTokens := [] }

/-- Remote-API configuration (`MCPConfig`). -/
structure MCPConfig where
  figmaToken : String
  fileKey : String
  baseUrl : String

/-- Initial value of the process-wide `globalConfig` in the source. -/
def defaultGlobalConfig : MCPConfig :=
  { figmaToken := "", fileKey := "KkqX7OKAggFzvfB0CMUwBz", baseUrl := "https://api.figma.com/v1" }

/-- Component classification by case-insensitive substring matching
(`getComponentType`). -/
def getComponentType (name : String) : ComponentKind :=
  let lowerName := strToLower name
  if strIncludes lowerName "button" || strIncludes lowerName "btn" then ComponentKind.button
  else if strIncludes lowerName "input" || strIncludes lowerName "field" then ComponentKind.input
  else if strIncludes lowerName "card" || strIncludes lowerName "container" then ComponentKind.card
  else if strIncludes lowerName "text" || strIncludes lowerName "label" then ComponentKind.text
  else ComponentKind.other

/-! ## Token loader (`src/unnamed/part_000`, lines 50–315)

The loader talks to external effectful hosts (the remote HTTP API, the timer,
and the open document's local styles). Those hosts are modelled as oracle
arguments:

* the remote fetch is an oracle with a settlement time in milliseconds and an
  outcome (resolving with an update of the store, or rejecting);
* whether the `try` block building the mock data throws is an oracle flag
  (`mockThrows`), embedding the `try/catch` around `loadMockDesignSystem`;
* the body of `loadLocalDesignSystem` — a sequence of host reads each adding
  one token to the store — is a list of update steps together with an optional
  index at which the host throws; the `catch {}` swallows the error and keeps
  the store in the partial state reached.
-/

/-- Outcome of the remote fetch promise. -/
inductive RemoteOutcome where
  | resolved (upd : DesignSystemConfig → DesignSystemConfig)
  | rejected

/-- Timeout bound for the remote path (`setTimeout(..., 5000)`). -/
def API_TIMEOUT_MS : ℕ := 5000

/-- `Promise.race([apiPromise, timeoutPromise])`: the fetch wins only when it
settles strictly before the 5-second timer and resolves; a rejection or a
timer win yields `none` (the `catch` branch). -/
def raceWithTimeout (settleMs : ℕ) (remote : RemoteOutcome) :
    Option (DesignSystemConfig → DesignSystemConfig) :=
  if API_TIMEOUT_MS ≤ settleMs then none
  else match remote with
    | RemoteOutcome.resolved upd => some upd
    | RemoteOutcome.rejected => none

/-- Environment for the local-document fallback: the token-adding steps its
`try` block would perform, and an optional step index at which the host
throws. -/
structure LocalEnv where
  steps : List (DesignSystemConfig → DesignSystemConfig)
  failAfter : Option ℕ

def applySteps (store : DesignSystemConfig)
    (steps : List (DesignSystemConfig → DesignSystemConfig)) : DesignSystemConfig :=
  steps.foldl (fun s f => f s) store

/-- `loadLocalDesignSystem`: runs its steps in order; if the host throws after
`k` steps, the surrounding `catch {}` swallows the error and the store keeps
the partial state of the first `k` steps. -/
def loadLocalDesignSystem (lenv : LocalEnv) (store : DesignSystemConfig) : DesignSystemConfig :=
  match lenv.failAfter with
  | none => applySteps store lenv.steps
  | some k => applySteps store (lenv.steps.take k)

/-- Colour tokens of the mock design system (`loadMockDesignSystem`). -/
def mockColourTokens : List (String × RGB) :=
  [ ("Primary/Blue/500", ⟨196, 275, 898⟩),
    ("Primary/Blue/600", ⟨157, 220, 718⟩),
    ("Primary/Blue/700", ⟨118, 165, 538⟩),
    ("Primary/Blue/50", ⟨961, 965, 988⟩),
    ("Primary/Blue/100", ⟨918, 925, 976⟩),
    ("Primary/Blue/200", ⟨835, 851, 949⟩),
    ("Primary/Blue/300", ⟨690, 722, 910⟩),
    ("Primary/Blue/400", ⟨443, 498, 804⟩),
    ("Secondary/Green/500", ⟨63, 725, 506⟩),
    ("Secondary/Green/600", ⟨51, 580, 404⟩),
    ("Secondary/Green/700", ⟨39, 435, 302⟩),
    ("Secondary/Green/50", ⟨961, 988, 984⟩),
    ("Secondary/Green/100", ⟨918, 976, 965⟩),
    ("Secondary/Green/200", ⟨835, 949, 925⟩),
    ("Secondary/Green/300", ⟨690, 910, 863⟩),
    ("Secondary/Green/400", ⟨443, 804, 722⟩),
    ("Neutral/Gray/50", ⟨980, 980, 980⟩),
    ("Neutral/Gray/100", ⟨961, 961, 961⟩),
    ("Neutral/Gray/200", ⟨925, 925, 925⟩),
    ("Neutral/Gray/300", ⟨863, 863, 863⟩),
    ("Neutral/Gray/400", ⟨722, 722, 722⟩),
    ("Neutral/Gray/500", ⟨427, 447, 502⟩),
    ("Neutral/Gray/600", ⟨341, 357, 400⟩),
    ("Neutral/Gray/700", ⟨255, 267, 298⟩),
    ("Neutral/Gray/800", ⟨169, 176, 196⟩),
    ("Neutral/Gray/900", ⟨82, 86, 94⟩),
    ("Semantic/Success/500", ⟨63, 725, 506⟩),
    ("Semantic/Success/600", ⟨51, 580, 404⟩),
    ("Semantic/Success/50", ⟨961, 988, 984⟩),
    ("Semantic/Success/100", ⟨918, 976, 965⟩),
    ("Semantic/Warning/500", ⟨976, 580, 63⟩),
    ("Semantic/Warning/600", ⟨780, 463, 51⟩),
    ("Semantic/Warning/50", ⟨996, 976, 961⟩),
    ("Semantic/Warning/100", ⟨992, 949, 918⟩),
    ("Semantic/Error/500", ⟨937, 220, 220⟩),
    ("Semantic/Error/600", ⟨749, 176, 176⟩),
    ("Semantic/Error/50", ⟨996, 961, 961⟩),
    ("Semantic/Error/100", ⟨992, 918, 918⟩),
    ("Semantic/Info/500", ⟨196, 275, 898⟩),
    ("Semantic/Info/600", ⟨157, 220, 718⟩),
    ("Semantic/Info/50", ⟨961, 965, 988⟩),
    ("Semantic/Info/100", ⟨918, 925, 976⟩) ]

/-- Text-style tokens of the mock design system. -/
def mockTextStyles : List (String × CustomTextStyle) :=
  [ ("Heading/H1", ⟨"Inter", 32, 700, 1.2, -0.02, none⟩),
    ("Heading/H2", ⟨"Inter", 28, 700, 1.25, -0.01, none⟩),
    ("Heading/H3", ⟨"Inter", 24, 600, 1.3, 0, none⟩),
    ("Heading/H4", ⟨"Inter", 20, 600, 1.35, 0, none⟩),
    ("Heading/H5", ⟨"Inter", 18, 600, 1.4, 0, none⟩),
    ("Heading/H6", ⟨"Inter", 16, 600, 1.4, 0, none⟩),
    ("Body/Large", ⟨"Inter", 16, 400, 1.5, 0, none⟩),
    ("Body/Medium", ⟨"Inter", 14, 400, 1.5, 0, none⟩),
    ("Body/Small", ⟨"Inter", 12, 400, 1.5, 0, none⟩),
    ("Caption/Large", ⟨"Inter", 12, 500, 1.4, 0.01, none⟩),
    ("Caption/Medium", ⟨"Inter", 11, 500, 1.4, 0.01, none⟩),
    ("Caption/Small", ⟨"Inter", 10, 500, 1.4, 0.01, none⟩),
    ("Button/Large", ⟨"Inter", 16, 600, 1.25, 0, none⟩),
    ("Button/Medium", ⟨"Inter", 14, 600, 1.25, 0, none⟩),
    ("Button/Small", ⟨"Inter", 12, 600, 1.25, 0, none⟩),
    ("Link/Large", ⟨"Inter", 16, 500, 1.5, 0, none⟩),
    ("Link/Medium", ⟨"Inter", 14, 500, 1.5, 0, none⟩),
    ("Link/Small", ⟨"Inter", 12, 500, 1.5, 0, none⟩) ]

/-- Spacing tokens of the mock design system. -/
def mockSpacingTokens : List (String × ℚ) :=
  [ ("Spacing/0", 0), ("Spacing/1", 4), ("Spacing/2", 8), ("Spacing/3", 12), ("Spacing/4", 16),
    ("Spacing/5", 20), ("Spacing/6", 24), ("Spacing/8", 32), ("Spacing/10", 40), ("Spacing/12", 48),
    ("Spacing/16", 64), ("Spacing/20", 80), ("Spacing/24", 96), ("Spacing/32", 128), ("Spacing/40", 160),
    ("Spacing/48", 192), ("Spacing/56", 224), ("Spacing/64", 256) ]

/-- Component tokens of the mock design system. -/
def mockComponentTokens : List (String × ComponentToken) :=
  [ ("Button/Primary", ⟨"Button/Primary", ComponentKind.button, ["fillStyleId", "textStyleId"], ["Large", "Medium", "Small", "Disabled"]⟩),
    ("Button/Secondary", ⟨"Button/Secondary", ComponentKind.button, ["fillStyleId", "textStyleId"], ["Large", "Medium", "Small", "Disabled"]⟩),
    ("Button/Tertiary", ⟨"Button/Tertiary", ComponentKind.button, ["fillStyleId", "textStyleId"], ["Large", "Medium", "Small", "Disabled"]⟩),
    ("Button/Danger", ⟨"Button/Danger", ComponentKind.button, ["fillStyleId", "textStyleId"], ["Large", "Medium", "Small", "Disabled"]⟩),
    ("Input/Text", ⟨"Input/Text", ComponentKind.input, ["fillStyleId", "textStyleId"], ["Large", "Medium", "Small", "Error", "Disabled"]⟩),
    ("Input/Password", ⟨"Input/Password", ComponentKind.input, ["fillStyleId", "textStyleId"], ["Large", "Medium", "Small", "Error", "Disabled"]⟩),
    ("Input/Email", ⟨"Input/Email", ComponentKind.input, ["fillStyleId", "textStyleId"], ["Large", "Medium", "Small", "Error", "Disabled"]⟩),
    ("Card/Default", ⟨"Card/Default", ComponentKind.card, ["fillStyleId"], ["Elevated", "Outlined", "Filled"]⟩),
    ("Card/Interactive", ⟨"Card/Interactive", ComponentKind.card, ["fillStyleId"], ["Hover", "Pressed", "Selected"]⟩),
    ("Text/Heading", ⟨"Text/Heading", ComponentKind.text, ["textStyleId"], ["H1", "H2", "H3", "H4", "H5", "H6"]⟩),
    ("Text/Body", ⟨"Text/Body", ComponentKind.text, ["textStyleId"], ["Large", "Medium", "Small"]⟩),
    ("Text/Caption", ⟨"Text/Caption", ComponentKind.text, ["textStyleId"], ["Large", "Medium", "Small"]⟩),
    ("Text/Link", ⟨"Text/Link", ComponentKind.text, ["textStyleId"], ["Large", "Medium", "Small"]⟩) ]

/-- The complete mock store (`mockData` in `loadMockDesignSystem`). -/
def mockDesignSystem : DesignSystemConfig :=
  { colourTokens := mockColourTokens,
    textStyles := mockTextStyles,
    spacingTokens := mockSpacingTokens,
    componentTokens := mockComponentTokens }

/-- `loadMockDesignSystem`: replaces the store with the mock data; if its
`try` block throws (oracle `mockThrows`), falls back to the local-document
loader. -/
def loadMockDesignSystem (mockThrows : Bool) (lenv : LocalEnv)
    (store : DesignSystemConfig) : DesignSystemConfig :=
  if mockThrows then loadLocalDesignSystem lenv store else mockDesignSystem

/-- `loadDesignSystemViaMCP`: an absent or blank credential goes directly to
the mock data (no remote oracle is consulted); otherwise the remote fetch is
raced against the 5-second timer and any non-success falls back to the mock
data. Total by construction — the embedded loader never throws. -/
def loadDesignSystemViaMCP (mcpConfig : MCPConfig) (settleMs : ℕ) (remote : RemoteOutcome)
    (mockThrows : Bool) (lenv : LocalEnv) (store : DesignSystemConfig) : DesignSystemConfig :=
  if jsTrim mcpConfig.figmaToken == "" then
    loadMockDesignSystem mockThrows lenv store
  else
    match raceWithTimeout settleMs remote with
    | some upd => upd store
    | none => loadMockDesignSystem mockThrows lenv store

/-! ## Rule catalogue

`tokenRules` embeds the per-node rule block of `runAnalysis` in
`src/unnamed/part_000` (lines 355–415); `simpleRules` embeds the block in
`src/code.ts` (lines 43–121), which additionally has the typography rule and
uses hardcoded colour constants. -/

/-- `fills.find(f => f.type === 'SOLID' && f.visible)`. -/
def findVisibleSolid (fills : List Paint) : Option Paint :=
  fills.find? (fun f => f.type == PaintType.SOLID && f.visible)

/-- Hardcoded-fill rule of the token-aware implementation: fires when a node
exposes a fill array, has no fill style attached, and has a visible solid
paint; text nodes get issue type `Text/Colour`, all other nodes
`Colour/Token`. -/
def hardcodedFillIssue (n : Node) : Option DesignIssue :=
  match n.fills with
  | some fills =>
    if n.fillStyleId == "" then
      match findVisibleSolid fills with
      | some _ =>
        let issueType := if n.ty == NodeType.TEXT then "Text/Colour" else "Colour/Token"
        let detail :=
          if n.ty == NodeType.TEXT then
            "Text uses hardcoded colour instead of design system token. Should use Functional/Carbon for text."
          else
            "Layer uses a hardcoded fill colour. Must use a Colour Style/Token."
        some { type := issueType, layer := n.name, nodeId := n.id, detail := detail, fixable := true }
      | none => none
    else none
  | none => none

/-- Integer absolute value written as the source computes `Math.abs`. -/
def intAbs (q : ℤ) : ℤ :=
  if q < 0 then -q else q

/-- Per-channel tolerance test `Math.abs(a - b) < 0.01` (10 thousandths). -/
def nearChannel (a b : ℤ) : Bool :=
  decide (intAbs (a - b) < 10)

/-- Button-style rule of the token-aware implementation: the primary colour
is looked up in the store under `Primary/Blue/600`; a missing token makes
`matchesPrimary` false. -/
def buttonStyleIssue (cfg : DesignSystemConfig) (n : Node) : Option DesignIssue :=
  if strIncludes (strToLower n.name) "button" || strIncludes (strToLower n.name) "btn" then
    if n.ty == NodeType.RECTANGLE then
      match n.fills with
      | some fills =>
        if n.fillStyleId == "" then
          let isIncorrectColour :=
            match findVisibleSolid fills with
            | some solidFill =>
              let matchesPrimary :=
                match cfg.colourTokens.lookup "Primary/Blue/600" with
                | some pc =>
                  nearChannel solidFill.color.r pc.r &&
                  nearChannel solidFill.color.g pc.g &&
                  nearChannel solidFill.color.b pc.b
                | none => false
              !matchesPrimary
            | none => decide (0 < fills.length)
          if isIncorrectColour then
            some { type := "Button/Style", layer := n.name, nodeId := n.id,
                   detail := "Button uses hardcoded colour. Must use Primary Button token (Indigo/600).",
                   fixable := true }
          else none
        else none
      | none => none
    else none
  else none

/-- Fixed rule order of the token-aware implementation. -/
def tokenRules (cfg : DesignSystemConfig) (n : Node) : List DesignIssue :=
  (hardcodedFillIssue n).toList ++ (buttonStyleIssue cfg n).toList

/-- Constants of the simpler implementation (`src/code.ts`, lines 8–14). -/
def GRAY_500_RGB : RGB := ⟨427, 447, 502⟩

def APPROVED_FONT_SIZE : ℚ := 14

def PRIMARY_BUTTON_COLOR_RGB : RGB := ⟨196, 275, 898⟩

/-- Hardcoded-fill rule of the simpler implementation (issue type always
`Colour/Token`). -/
def colourTokenIssue (n : Node) : Option DesignIssue :=
  match n.fills with
  | some fills =>
    if n.fillStyleId == "" then
      match findVisibleSolid fills with
      | some _ =>
        some { type := "Colour/Token", layer := n.name, nodeId := n.id,
               detail := "Layer uses a hardcoded fill colour. Must use a Colour Style/Token.",
               fixable := true }
      | none => none
    else none
  | none => none

/-- Typography rule of the simpler implementation: a text node whose numeric
font size is not the approved 14 is flagged. -/
def typographyIssue (n : Node) : Option DesignIssue :=
  if n.ty == NodeType.TEXT then
    match n.fontSize with
    | some fs =>
      if fs != APPROVED_FONT_SIZE then
        some { type := "Typography", layer := n.name, nodeId := n.id,
               detail := "Uses non-standard font size (" ++ toString fs ++
                 "px). Recommended size is " ++ toString APPROVED_FONT_SIZE ++ "px.",
               fixable := true }
      else none
    | none => none
  else none

/-- Button-style rule of the simpler implementation (compares against the
constant `PRIMARY_BUTTON_COLOR_RGB` instead of a store lookup). -/
def buttonStyleIssueSimple (n : Node) : Option DesignIssue :=
  if strIncludes (strToLower n.name) "button" || strIncludes (strToLower n.name) "btn" then
    if n.ty == NodeType.RECTANGLE then
      match n.fills with
      | some fills =>
        if n.fillStyleId == "" then
          let isIncorrectColour :=
            match findVisibleSolid fills with
            | some solidFill =>
              let matchesPrimary :=
                nearChannel solidFill.color.r PRIMARY_BUTTON_COLOR_RGB.r &&
                nearChannel solidFill.color.g PRIMARY_BUTTON_COLOR_RGB.g &&
                nearChannel solidFill.color.b PRIMARY_BUTTON_COLOR_RGB.b
              !matchesPrimary
            | none => decide (0 < fills.length)
          if isIncorrectColour then
            some { type := "Button/Style", layer := n.name, nodeId := n.id,
                   detail := "Button uses hardcoded colour. Must use Primary Button token (Indigo/600).",
                   fixable := true }
          else none
        else none
      | none => none
    else none
  else none

/-- Fixed rule order of the simpler implementation. -/
def simpleRules (n : Node) : List DesignIssue :=
  (colourTokenIssue n).toList ++ (typographyIssue n).toList ++ (buttonStyleIssueSimple n).toList

/-! ## Traversal (`runAnalysis`)

Both implementations share the same traversal: depth-first pre-order, a node
is skipped unless it is visible or a `DOCUMENT`/`PAGE` container, each node's
rules run before its children. -/

/-- Visit condition: the negation of the early `return` guard
`!('visible' in node && node.visible) && node.type !== 'DOCUMENT' && node.type !== 'PAGE'`. -/
def visitGuard (n : Node) : Bool :=
  (isSceneType n.ty && n.visible) || n.ty == NodeType.DOCUMENT || n.ty == NodeType.PAGE

mutual

/-- The inner `traverse` closure, parametric in the per-node rule block. -/
def traverseWith (rules : Node → List DesignIssue) : Node → List DesignIssue
  | n@(Node.mk _ _ _ _ _ _ _ _ _ ch) =>
    if visitGuard n then rules n ++ traverseListWith rules ch else []

/-- Traversal of a child list (the `for` loop over `node.children`). -/
def traverseListWith (rules : Node → List DesignIssue) : List Node → List DesignIssue
  | [] => []
  | n :: ns => traverseWith rules n ++ traverseListWith rules ns

end

mutual

/-- Exception-aware traversal: the rule block may throw (`Except.error`);
issues pushed so far are kept and the error propagates, aborting the walk. -/
def traverseCatch {E : Type} (rules : Node → Except E (List DesignIssue)) :
    Node → List DesignIssue × Option E
  | n@(Node.mk _ _ _ _ _ _ _ _ _ ch) =>
    if visitGuard n then
      match rules n with
      | Except.error e => ([], some e)
      | Except.ok here =>
        match traverseListCatch rules ch with
        | (below, oe) => (here ++ below, oe)
    else ([], none)

/-- Exception-aware traversal of a node list, stopping at the first throw. -/
def traverseListCatch {E : Type} (rules : Node → Except E (List DesignIssue)) :
    List Node → List DesignIssue × Option E
  | [] => ([], none)
  | n :: ns =>
    match traverseCatch rules n with
    | (here, some e) => (here, some e)
    | (here, none) =>
      match traverseListCatch rules ns with
      | (rest, oe) => (here ++ rest, oe)

end

/-- The top level of `runAnalysis`: the walk over the selected roots is
wrapped in `try/catch`, so the issues accumulated before any throw are
returned and the error is swallowed. Total by construction — never throws. -/
def runAnalysisCatch {E : Type} (rules : Node → Except E (List DesignIssue))
    (selectedNodes : List Node) : List DesignIssue :=
  (traverseListCatch rules selectedNodes).1

/-- `runAnalysis` of the token-aware implementation: loads the token store
first (threading the loader oracles), then walks the selection. -/
def runAnalysis (mcpConfig : MCPConfig) (settleMs : ℕ) (remote : RemoteOutcome)
    (mockThrows : Bool) (lenv : LocalEnv) (store : DesignSystemConfig)
    (selectedNodes : List Node) : List DesignIssue :=
  let cfg := loadDesignSystemViaMCP mcpConfig settleMs remote mockThrows lenv store
  traverseListWith (tokenRules cfg) selectedNodes

/-- `runAnalysis` of the simpler implementation (`src/code.ts`): no token
store involved. -/
def runAnalysisSimple (selectedNodes : List Node) : List DesignIssue :=
  traverseListWith simpleRules selectedNodes

/-! ## Fix engine (`applyFix`)

The host document is a lookup `String → Option Node` (`figma.getNodeById`);
`figma.loadFontAsync` success is the oracle `fontLoads`. A fix returns the
`{status, message}` record of the source paired with the mutation it performed
(`NodeMutation.noMutation` on every error path). -/

inductive FixStatus where
  | success
  | error
deriving DecidableEq, Repr

structure FixResult where
  status : FixStatus
  message : String
deriving DecidableEq, Repr

/-- The mutation a fix performs on the target node. -/
inductive NodeMutation where
  | noMutation
  | setFills (fills : List Paint)
  | setFontSize (size : ℚ)
deriving DecidableEq, Repr

/-- The replacement paint every colour fix writes:
`{type: "SOLID", color, opacity: 1, visible: true, blendMode: "NORMAL"}`. -/
def solidPaint (c : RGB) : Paint :=
  { type := PaintType.SOLID, color := c, opacity := 1, visible := true, blendMode := "NORMAL" }

/-- The repeated mixed-font/font-load block of the source, in its order:
`Array.isArray(node.fontName)` → mixed-fonts error; `node.fontName ===
figma.mixed` → mixed-fonts (figma.mixed) error; failing `loadFontAsync` →
font-load error; otherwise no objection. -/
def mixedFontGuard (fontLoads : FontNameV → Bool) (n : Node) : Option String :=
  match n.fontName with
  | FontRef.multiple _ => some "Text layer uses mixed fonts and cannot be auto-fixed."
  | FontRef.mixed => some "Text layer uses mixed fonts (figma.mixed) and cannot be auto-fixed."
  | FontRef.single f =>
    if fontLoads f then none
    else some "Failed to load font for text layer. Manual fix required."

/-- Allow-list of fillable node kinds (`fillableTypes`). -/
def fillableTypes : List NodeType :=
  [NodeType.RECTANGLE, NodeType.ELLIPSE, NodeType.POLYGON, NodeType.STAR, NodeType.VECTOR,
   NodeType.TEXT, NodeType.FRAME, NodeType.COMPONENT, NodeType.COMPONENT_SET, NodeType.INSTANCE]

/-- Display string of a node type tag (JS `${node.type}`). -/
def NodeType.str : NodeType → String
  | NodeType.RECTANGLE => "RECTANGLE"
  | NodeType.ELLIPSE => "ELLIPSE"
  | NodeType.POLYGON => "POLYGON"
  | NodeType.STAR => "STAR"
  | NodeType.VECTOR => "VECTOR"
  | NodeType.TEXT => "TEXT"
  | NodeType.FRAME => "FRAME"
  | NodeType.COMPONENT => "COMPONENT"
  | NodeType.COMPONENT_SET => "COMPONENT_SET"
  | NodeType.INSTANCE => "INSTANCE"
  | NodeType.GROUP => "GROUP"
  | NodeType.DOCUMENT => "DOCUMENT"
  | NodeType.PAGE => "PAGE"

/-- Result of falling out of a `case` without returning:
`'Fix logic did not apply any changes.'`. -/
def fixNoChanges : FixResult × NodeMutation :=
  ({ status := FixStatus.error, message := "Fix logic did not apply any changes." }, NodeMutation.noMutation)

/-- `applyFix` of the token-aware implementation (`src/unnamed/part_000`,
lines 445–619). -/
def applyFix (cfg : DesignSystemConfig) (getNodeById : String → Option Node)
    (fontLoads : FontNameV → Bool) (nodeId issueType : String) : FixResult × NodeMutation :=
  match getNodeById nodeId with
  | none => ({ status := FixStatus.error, message := "Node not found or removed." }, NodeMutation.noMutation)
  | some node =>
    if isSceneType node.ty && node.locked then
      ({ status := FixStatus.error, message := "Layer is locked. Manual fix needed." }, NodeMutation.noMutation)
    else if issueType == "Text/Colour" then
      if node.ty == NodeType.TEXT then
        match mixedFontGuard fontLoads node with
        | some msg => ({ status := FixStatus.error, message := msg }, NodeMutation.noMutation)
        | none =>
          match node.fills with
          | some _ =>
            let carbonColour := (cfg.colourTokens.lookup "Functional/Carbon").getD ⟨100, 100, 100⟩
            ({ status := FixStatus.success, message := "Applied Functional/Carbon colour to text." },
             NodeMutation.setFills [solidPaint carbonColour])
          | none => fixNoChanges
      else fixNoChanges
    else if issueType == "Colour/Token" then
      if !(fillableTypes.contains node.ty) then
        ({ status := FixStatus.error,
           message := "Cannot apply fill fix to node type: " ++ NodeType.str node.ty ++ "." },
         NodeMutation.noMutation)
      else
        match node.fills with
        | some _ =>
          match (if node.ty == NodeType.TEXT then mixedFontGuard fontLoads node else none) with
          | some msg => ({ status := FixStatus.error, message := msg }, NodeMutation.noMutation)
          | none =>
            if node.ty == NodeType.INSTANCE && node.fillStyleId == "" then
              ({ status := FixStatus.error, message := "Instance property may be locked or unoverrideable." },
               NodeMutation.noMutation)
            else
              let carbonColour := (cfg.colourTokens.lookup "Functional/Carbon").getD ⟨100, 100, 100⟩
              ({ status := FixStatus.success, message := "Applied Functional/Carbon colour fill." },
               NodeMutation.setFills [solidPaint carbonColour])
        | none => fixNoChanges
    else if issueType == "Typography" then
      if node.ty == NodeType.TEXT then
        match mixedFontGuard fontLoads node with
        | some msg => ({ status := FixStatus.error, message := msg }, NodeMutation.noMutation)
        | none =>
          ({ status := FixStatus.error,
             message := "Typography fixes should use design system text styles instead of hardcoded font sizes." },
           NodeMutation.noMutation)
      else fixNoChanges
    else if issueType == "Button/Style" then
      match node.fills with
      | some _ =>
        if node.ty == NodeType.INSTANCE && node.fillStyleId == "" then
          ({ status := FixStatus.error, message := "Instance property may be locked or unoverrideable." },
           NodeMutation.noMutation)
        else
          match (if node.ty == NodeType.TEXT then mixedFontGuard fontLoads node else none) with
          | some msg => ({ status := FixStatus.error, message := msg }, NodeMutation.noMutation)
          | none =>
            let primaryButtonColour := (cfg.colourTokens.lookup "Primary/Blue/600").getD ⟨196, 275, 898⟩
            ({ status := FixStatus.success, message := "Applied Primary Button (Indigo/600) colour fill." },
             NodeMutation.setFills [solidPaint primaryButtonColour])
      | none => fixNoChanges
    else
      ({ status := FixStatus.error, message := "Unknown issue type: " ++ issueType }, NodeMutation.noMutation)

/-- `applyFix` of the simpler implementation (`src/code.ts`, lines 151–286):
no `Text/Colour` case, fixed colour constants, and the typography fix sets
the font size to the approved value. -/
def applyFixSimple (getNodeById : String → Option Node) (fontLoads : FontNameV → Bool)
    (nodeId issueType : String) : FixResult × NodeMutation :=
  match getNodeById nodeId with
  | none => ({ status := FixStatus.error, message := "Node not found or removed." }, NodeMutation.noMutation)
  | some node =>
    if isSceneType node.ty && node.locked then
      ({ status := FixStatus.error, message := "Layer is locked. Manual fix needed." }, NodeMutation.noMutation)
    else if issueType == "Colour/Token" then
      if !(fillableTypes.contains node.ty) then
        ({ status := FixStatus.error,
           message := "Cannot apply fill fix to node type: " ++ NodeType.str node.ty ++ "." },
         NodeMutation.noMutation)
      else
        match node.fills with
        | some _ =>
          match (if node.ty == NodeType.TEXT then mixedFontGuard fontLoads node else none) with
          | some msg => ({ status := FixStatus.error, message := msg }, NodeMutation.noMutation)
          | none =>
            if node.ty == NodeType.INSTANCE && node.fillStyleId == "" then
              ({ status := FixStatus.error, message := "Instance property may be locked or unoverrideable." },
               NodeMutation.noMutation)
            else
              ({ status := FixStatus.success, message := "Applied Gray/500 colour fill." },
               NodeMutation.setFills [solidPaint GRAY_500_RGB])
        | none => fixNoChanges
    else if issueType == "Typography" then
      if node.ty == NodeType.TEXT then
        match mixedFontGuard fontLoads node with
        | some msg => ({ status := FixStatus.error, message := msg }, NodeMutation.noMutation)
        | none =>
          ({ status := FixStatus.success,
             message := "Set font size to " ++ toString APPROVED_FONT_SIZE ++ "px." },
           NodeMutation.setFontSize APPROVED_FONT_SIZE)
      else fixNoChanges
    else if issueType == "Button/Style" then
      match node.fills with
      | some _ =>
        if node.ty == NodeType.INSTANCE && node.fillStyleId == "" then
          ({ status := FixStatus.error, message := "Instance property may be locked or unoverrideable." },
           NodeMutation.noMutation)
        else
          match (if node.ty == NodeType.TEXT then mixedFontGuard fontLoads node else none) with
          | some msg => ({ status := FixStatus.error, message := msg }, NodeMutation.noMutation)
          | none =>
            ({ status := FixStatus.success, message := "Applied Primary Button (Indigo/600) colour fill." },
             NodeMutation.setFills [solidPaint PRIMARY_BUTTON_COLOR_RGB])
      | none => fixNoChanges
    else
      ({ status := FixStatus.error, message := "Unknown issue type: " ++ issueType }, NodeMutation.noMutation)

/-! ## Basic lemmas about the traversal -/

theorem traverseWith_def (rules : Node → List DesignIssue) (n : Node) :
    traverseWith rules n =
      if visitGuard n then rules n ++ traverseListWith rules n.children else [] := by
  cases n
  simp [traverseWith, Node.children]

theorem traverseListWith_nil (rules : Node → List DesignIssue) :
    traverseListWith rules [] = [] := by
  simp [traverseListWith]

theorem traverseListWith_cons (rules : Node → List DesignIssue) (n : Node) (ns : List Node) :
    traverseListWith rules (n :: ns) = traverseWith rules n ++ traverseListWith rules ns := by
  simp [traverseListWith]

theorem traverseCatch_def {E : Type} (rules : Node → Except E (List DesignIssue)) (n : Node) :
    traverseCatch rules n =
      if visitGuard n then
        match rules n with
        | Except.error e => ([], some e)
        | Except.ok here =>
          ((here ++ (traverseListCatch rules n.children).1), (traverseListCatch rules n.children).2)
      else ([], none) := by
  cases n
  simp only [traverseCatch, Node.children]

theorem traverseListCatch_nil {E : Type} (rules : Node → Except E (List DesignIssue)) :
    traverseListCatch rules [] = ([], none) := by
  simp [traverseListCatch]

theorem traverseListCatch_cons {E : Type} (rules : Node → Except E (List DesignIssue))
    (n : Node) (ns : List Node) :
    traverseListCatch rules (n :: ns) =
      match traverseCatch rules n with
      | (here, some e) => (here, some e)
      | (here, none) =>
        ((here ++ (traverseListCatch rules ns).1), (traverseListCatch rules ns).2) := by
  simp only [traverseListCatch]

/-! ## Mutual induction over the node tree -/

mutual

theorem nodeRecAux {P : Node → Prop} {Q : List Node → Prop}
    (hmk : ∀ id name ty vis lck fills fsid fn fsz ch,
      Q ch → P (Node.mk id name ty vis lck fills fsid fn fsz ch))
    (hnil : Q []) (hcons : ∀ n ns, P n → Q ns → Q (n :: ns)) : ∀ n : Node, P n
  | Node.mk id name ty vis lck fills fsid fn fsz ch =>
    hmk id name ty vis lck fills fsid fn fsz ch (listRecAux hmk hnil hcons ch)

theorem listRecAux {P : Node → Prop} {Q : List Node → Prop}
    (hmk : ∀ id name ty vis lck fills fsid fn fsz ch,
      Q ch → P (Node.mk id name ty vis lck fills fsid fn fsz ch))
    (hnil : Q []) (hcons : ∀ n ns, P n → Q ns → Q (n :: ns)) : ∀ ns : List Node, Q ns
  | [] => hnil
  | n :: ns => hcons n ns (nodeRecAux hmk hnil hcons n) (listRecAux hmk hnil hcons ns)

end

/-! ## Concrete example nodes used by witnesses and scenario claims -/

/-- A visible solid grey fill `RGB (0.5, 0.5, 0.5)`. -/
def pbRectFill : Paint :=
  { type := PaintType.SOLID, color := ⟨500, 500, 500⟩, opacity := 1, visible := true, blendMode := "NORMAL" }

/-- The C2 scenario node: a visible rectangle named "Primary Button" with one
visible solid grey fill and no fill-style reference. -/
def pbRect : Node :=
  Node.mk "1:1" "Primary Button" NodeType.RECTANGLE true false (some [pbRectFill]) ""
    (FontRef.single ⟨"Inter", "Regular"⟩) none []

/-- A hidden rectangle with a visible child: hidden non-containers are
skipped together with their subtree. -/
def hiddenRect : Node :=
  Node.mk "2:1" "Hidden Rect" NodeType.RECTANGLE false false (some [pbRectFill]) ""
    (FontRef.single ⟨"Inter", "Regular"⟩) none [pbRect]

/-- An (invisible) page node: pages are descended into regardless of
visibility. -/
def pageNode : Node :=
  Node.mk "0:1" "Page 1" NodeType.PAGE false false none ""
    (FontRef.single ⟨"Inter", "Regular"⟩) none [pbRect]

/-- A locked, visible rectangle with a hardcoded fill. -/
def lockedRect : Node :=
  Node.mk "3:1" "Locked Rect" NodeType.RECTANGLE true true (some [pbRectFill]) ""
    (FontRef.single ⟨"Inter", "Regular"⟩) none []

/-! ## Claims -/

/-- Claim C1: for every sequence of selected root nodes, `runAnalysis` never
raises — `runAnalysisCatch` is a total function returning an issue list — and
if the rule block throws at any node (any rule function whose successful
results agree with the pure rules), the walk aborts but the issues
accumulated before the throw are still returned: the caught result is an
initial segment of the pure analysis, and it is the whole pure analysis when
nothing throws. -/
theorem claim_C1_analysis_never_raises {E : Type}
    (rules : Node → Except E (List DesignIssue)) (pureRules : Node → List DesignIssue)
    (hok : ∀ n is, rules n = Except.ok is → is = pureRules n)
    (selectedNodes : List Node) :
    ∃ t, traverseListWith pureRules selectedNodes = runAnalysisCatch rules selectedNodes ++ t ∧
      ((traverseListCatch rules selectedNodes).2 = none → t = []) := by
  have main := @listRecAux
    (fun n => ∃ t, traverseWith pureRules n = (traverseCatch rules n).1 ++ t ∧
      ((traverseCatch rules n).2 = none → t = []))
    (fun ns => ∃ t, traverseListWith pureRules ns = (traverseListCatch rules ns).1 ++ t ∧
      ((traverseListCatch rules ns).2 = none → t = []))
    ?_ ?_ ?_ selectedNodes
  · simpa [runAnalysisCatch] using main
  · intro id name ty vis lck fills fsid fn fsz ch ih
    rw [traverseWith_def, traverseCatch_def]
    by_cases hg : visitGuard (Node.mk id name ty vis lck fills fsid fn fsz ch) = true
    · rw [if_pos hg, if_pos hg]
      cases hr : rules (Node.mk id name ty vis lck fills fsid fn fsz ch) with
      | error e =>
        exact ⟨pureRules (Node.mk id name ty vis lck fills fsid fn fsz ch) ++
          traverseListWith pureRules ch, by simp [Node.children], by simp⟩
      | ok here =>
        obtain ⟨t0, ht0, hnone⟩ := ih
        refine ⟨t0, ?_, fun h => hnone h⟩
        rw [hok _ _ hr]
        simp [Node.children, ht0]
    · rw [if_neg hg, if_neg hg]
      exact ⟨[], by simp, fun _ => rfl⟩
  · exact ⟨[], by simp [traverseListWith_nil, traverseListCatch_nil], fun _ => rfl⟩
  · intro n ns Pn Qns
    obtain ⟨t1, h1, h1n⟩ := Pn
    obtain ⟨t2, h2, h2n⟩ := Qns
    rw [traverseListWith_cons, traverseListCatch_cons]
    rcases hceq : traverseCatch rules n with ⟨here, oe⟩
    rcases oe with _ | e
    · have ht1 : t1 = [] := h1n (by rw [hceq])
      have h1' : traverseWith pureRules n = here := by
        rw [h1, hceq, ht1, List.append_nil]
      refine ⟨t2, ?_, ?_⟩
      · simp [h1', h2]
      · intro h
        exact h2n h
    · refine ⟨t1 ++ traverseListWith pureRules ns, ?_, by simp⟩
      have h1' : traverseWith pureRules n = here ++ t1 := by rw [h1, hceq]
      simp [h1']

/-- Witness for C1 at a concrete input: a rule function that always throws,
over the single-node selection `[pbRect]`. -/
theorem claim_C1_witness :
    ∃ t, traverseListWith (tokenRules mockDesignSystem) [pbRect] =
      runAnalysisCatch (fun _ => (Except.error () : Except Unit (List DesignIssue))) [pbRect] ++ t ∧
      ((traverseListCatch (fun _ => (Except.error () : Except Unit (List DesignIssue))) [pbRect]).2 = none →
        t = []) :=
  claim_C1_analysis_never_raises (fun _ => (Except.error () : Except Unit (List DesignIssue)))
    (tokenRules mockDesignSystem) (fun _ _ h => Except.noConfusion h) [pbRect]

/-- Claim C2: on the visible rectangle "Primary Button" with one visible
solid fill `(0.5, 0.5, 0.5)` and no fill-style reference, `runAnalysis`
(token-aware implementation, blank credential so the mock store loads)
emits exactly the hardcoded-fill issue (`Colour/Token`) followed by the
button-style issue (`Button/Style`); and `applyFix` for `Button/Style`
replaces the fill list with a single opaque solid paint at the
`Primary/Blue/600` token colour `(0.157, 0.220, 0.718)` and succeeds. -/
theorem claim_C2_primary_button_scenario :
    runAnalysis defaultGlobalConfig 0 RemoteOutcome.rejected false ⟨[], none⟩ DEFAULT_CONFIG [pbRect] =
      [ { type := "Colour/Token", layer := "Primary Button", nodeId := "1:1",
          detail := "Layer uses a hardcoded fill colour. Must use a Colour Style/Token.", fixable := true },
        { type := "Button/Style", layer := "Primary Button", nodeId := "1:1",
          detail := "Button uses hardcoded colour. Must use Primary Button token (Indigo/600).", fixable := true } ] ∧
    applyFix mockDesignSystem (fun i => if i == "1:1" then some pbRect else none) (fun _ => true)
        "1:1" "Button/Style" =
      ({ status := FixStatus.success, message := "Applied Primary Button (Indigo/600) colour fill." },
       NodeMutation.setFills [solidPaint ⟨157, 220, 718⟩]) := by
  constructor
  · simp only [runAnalysis, traverseListWith, traverseWith, pbRect]
    decide
  · decide

/-- Claim C4: a node whose visibility flag is false and which is not a
document- or page-level container is skipped together with its entire
subtree (zero issues); document and page nodes are always descended into
regardless of visibility; and a visited node's rules run before its children
are traversed (depth-first pre-order). -/
theorem claim_C4_traversal_visibility (rules : Node → List DesignIssue) :
    (∀ n : Node, n.visible = false → isSceneType n.ty = true → traverseWith rules n = []) ∧
    (∀ n : Node, n.ty = NodeType.DOCUMENT ∨ n.ty = NodeType.PAGE →
      traverseWith rules n = rules n ++ traverseListWith rules n.children) ∧
    (∀ n : Node, n.visible = true → isSceneType n.ty = true →
      traverseWith rules n = rules n ++ traverseListWith rules n.children) := by
  refine ⟨?_, ?_, ?_⟩
  · intro n hv hs
    simp only [isSceneType, Bool.and_eq_true, bne_iff_ne, ne_eq] at hs
    rw [traverseWith_def, if_neg]
    simp [visitGuard, hv, hs.1, hs.2]
  · intro n hty
    rw [traverseWith_def, if_pos]
    rcases hty with h | h <;> simp [visitGuard, h]
  · intro n hv hs
    rw [traverseWith_def, if_pos]
    simp [visitGuard, hv, hs]

/-- Witness for C4 at concrete inputs: a hidden rectangle with a child is
skipped entirely; an invisible page node is still descended; the visible
`pbRect` is visited rules-first. -/
theorem claim_C4_witness :
    traverseWith (tokenRules mockDesignSystem) hiddenRect = [] ∧
    traverseWith (tokenRules mockDesignSystem) pageNode =
      tokenRules mockDesignSystem pageNode ++
        traverseListWith (tokenRules mockDesignSystem) pageNode.children ∧
    traverseWith (tokenRules mockDesignSystem) pbRect =
      tokenRules mockDesignSystem pbRect ++
        traverseListWith (tokenRules mockDesignSystem) pbRect.children :=
  ⟨(claim_C4_traversal_visibility (tokenRules mockDesignSystem)).1 hiddenRect (by decide) (by decide),
   (claim_C4_traversal_visibility (tokenRules mockDesignSystem)).2.1 pageNode (Or.inr (by decide)),
   (claim_C4_traversal_visibility (tokenRules mockDesignSystem)).2.2 pbRect (by decide) (by decide)⟩

/-- Claim C5: `applyFix` checks its preconditions in a fixed order,
short-circuiting at the first failure — unresolvable node id, then locked
layer (with no mutation), then unknown issue type — while analysis still
reports issues on locked nodes (last conjunct: the locked rectangle still
gets its hardcoded-fill issue from the rules). -/
theorem claim_C5_applyFix_precondition_order :
    (∀ (cfg : DesignSystemConfig) (getNodeById : String → Option Node)
       (fontLoads : FontNameV → Bool) (nodeId issueType : String),
       getNodeById nodeId = none →
       applyFix cfg getNodeById fontLoads nodeId issueType =
         ({ status := FixStatus.error, message := "Node not found or removed." },
          NodeMutation.noMutation)) ∧
    (∀ (cfg : DesignSystemConfig) (getNodeById : String → Option Node)
       (fontLoads : FontNameV → Bool) (nodeId issueType : String) (n : Node),
       getNodeById nodeId = some n → isSceneType n.ty = true → n.locked = true →
       applyFix cfg getNodeById fontLoads nodeId issueType =
         ({ status := FixStatus.error, message := "Layer is locked. Manual fix needed." },
          NodeMutation.noMutation)) ∧
    (∀ (cfg : DesignSystemConfig) (getNodeById : String → Option Node)
       (fontLoads : FontNameV → Bool) (nodeId issueType : String) (n : Node),
       getNodeById nodeId = some n → (isSceneType n.ty && n.locked) = false →
       issueType ∉ (["Text/Colour", "Colour/Token", "Typography", "Button/Style"] : List String) →
       applyFix cfg getNodeById fontLoads nodeId issueType =
         ({ status := FixStatus.error, message := "Unknown issue type: " ++ issueType },
          NodeMutation.noMutation)) ∧
    tokenRules mockDesignSystem lockedRect =
      [ { type := "Colour/Token", layer := "Locked Rect", nodeId := "3:1",
          detail := "Layer uses a hardcoded fill colour. Must use a Colour Style/Token.",
          fixable := true } ] := by
  refine ⟨?_, ?_, ?_, by decide⟩
  · intro cfg getNodeById fontLoads nodeId issueType h
    simp [applyFix, h]
  · intro cfg getNodeById fontLoads nodeId issueType n h hs hl
    simp [applyFix, h, hs, hl]
  · intro cfg getNodeById fontLoads nodeId issueType n h hguard hmem
    simp only [List.mem_cons, List.not_mem_nil, or_false, not_or] at hmem
    obtain ⟨h1, h2, h3, h4⟩ := hmem
    simp [applyFix, h, hguard, h1, h2, h3, h4]

/-- Witness for C5 at concrete inputs: missing node, locked `lockedRect`,
and an issue type outside the dispatch table. -/
theorem claim_C5_witness :
    applyFix mockDesignSystem (fun _ => none) (fun _ => true) "9:9" "Colour/Token" =
      ({ status := FixStatus.error, message := "Node not found or removed." },
       NodeMutation.noMutation) ∧
    applyFix mockDesignSystem (fun i => if i == "3:1" then some lockedRect else none)
        (fun _ => true) "3:1" "Colour/Token" =
      ({ status := FixStatus.error, message := "Layer is locked. Manual fix needed." },
       NodeMutation.noMutation) ∧
    applyFix mockDesignSystem (fun i => if i == "1:1" then some pbRect else none)
        (fun _ => true) "1:1" "Bogus/Type" =
      ({ status := FixStatus.error, message := "Unknown issue type: Bogus/Type" },
       NodeMutation.noMutation) :=
  ⟨claim_C5_applyFix_precondition_order.1 mockDesignSystem (fun _ => none) (fun _ => true)
      "9:9" "Colour/Token" rfl,
   claim_C5_applyFix_precondition_order.2.1 mockDesignSystem
      (fun i => if i == "3:1" then some lockedRect else none) (fun _ => true)
      "3:1" "Colour/Token" lockedRect rfl (by decide) (by decide),
   claim_C5_applyFix_precondition_order.2.2.1 mockDesignSystem
      (fun i => if i == "1:1" then some pbRect else none) (fun _ => true)
      "1:1" "Bogus/Type" pbRect rfl (by decide) (by decide)⟩

/-- Claim C3: for every candidate node — name containing "button" or "btn"
case-insensitively, basic rectangle type, fill array exposed — with no
fill-style reference, the token-aware button-style rule fires iff either the
first visible solid fill differs from the store's primary-button colour
(`Primary/Blue/600`) by at least 0.01 (i.e. 10 thousandths) in some RGB
channel, or the fill list is non-empty with no visible solid fill; with a
fill-style reference attached the rule never fires regardless of the token
it resolves to. The presence of the primary token in the store is a
hypothesis (see C10 for the missing-token behaviour). -/
theorem claim_C3_button_rule_characterisation (cfg : DesignSystemConfig) (n : Node)
    (pc : RGB) (fills : List Paint)
    (hpc : cfg.colourTokens.lookup "Primary/Blue/600" = some pc)
    (hname : (strIncludes (strToLower n.name) "button" ||
      strIncludes (strToLower n.name) "btn") = true)
    (hty : n.ty = NodeType.RECTANGLE)
    (hfills : n.fills = some fills) :
    (n.fillStyleId = "" →
      ((buttonStyleIssue cfg n).isSome = true ↔
        (match findVisibleSolid fills with
         | some f => 10 ≤ intAbs (f.color.r - pc.r) ∨ 10 ≤ intAbs (f.color.g - pc.g) ∨
             10 ≤ intAbs (f.color.b - pc.b)
         | none => fills ≠ []))) ∧
    (n.fillStyleId ≠ "" → buttonStyleIssue cfg n = none) := by
  constructor
  · intro hsid
    rcases hsolid : findVisibleSolid fills with _ | f
    · simp [buttonStyleIssue, hname, hty, hfills, hsid, hpc, hsolid,
        List.length_pos, List.isEmpty_iff]
    · simp [buttonStyleIssue, hname, hty, hfills, hsid, hpc, hsolid, nearChannel,
        not_and_or, not_lt, or_assoc]
  · intro hsid
    have hsid' : (n.fillStyleId == "") = false := beq_eq_false_iff_ne.mpr hsid
    simp [buttonStyleIssue, hname, hty, hfills, hsid']

/-- Witness for C3 at concrete inputs: the mock store, `pbRect`, and its grey
fill, which differs from the primary token in every channel. -/
theorem claim_C3_witness :
    (pbRect.fillStyleId = "" →
      ((buttonStyleIssue mockDesignSystem pbRect).isSome = true ↔
        (match findVisibleSolid [pbRectFill] with
         | some f => 10 ≤ intAbs (f.color.r - 157) ∨ 10 ≤ intAbs (f.color.g - 220) ∨
             10 ≤ intAbs (f.color.b - 718)
         | none => [pbRectFill] ≠ []))) ∧
    (pbRect.fillStyleId ≠ "" → buttonStyleIssue mockDesignSystem pbRect = none) :=
  claim_C3_button_rule_characterisation mockDesignSystem pbRect ⟨157, 220, 718⟩ [pbRectFill]
    (by decide) (by decide) rfl rfl

/-- Claim C6: a text node whose font reference is the mixed sentinel (or a
plural list value) and which has a hardcoded visible solid fill still gets
the hardcoded-fill (`Text/Colour`) issue from the rules (and hence from the
traversal when visible), and `applyFix` for that issue returns a mixed-font
error and performs no mutation. -/
theorem claim_C6_mixed_font_text (cfg : DesignSystemConfig)
    (getNodeById : String → Option Node) (fontLoads : FontNameV → Bool)
    (nodeId : String) (n : Node) (fills : List Paint)
    (hl : getNodeById nodeId = some n) (hty : n.ty = NodeType.TEXT)
    (hlock : n.locked = false)
    (hmx : n.fontName = FontRef.mixed ∨ ∃ l, n.fontName = FontRef.multiple l)
    (hfills : n.fills = some fills) (hsid : n.fillStyleId = "")
    (hsolid : (findVisibleSolid fills).isSome = true) :
    hardcodedFillIssue n = some
      { type := "Text/Colour", layer := n.name, nodeId := n.id,
        detail := "Text uses hardcoded colour instead of design system token. Should use Functional/Carbon for text.",
        fixable := true } ∧
    (n.visible = true →
      ∀ i, hardcodedFillIssue n = some i → i ∈ traverseWith (tokenRules cfg) n) ∧
    ∃ msg, applyFix cfg getNodeById fontLoads nodeId "Text/Colour" =
        ({ status := FixStatus.error, message := msg }, NodeMutation.noMutation) ∧
      (msg = "Text layer uses mixed fonts (figma.mixed) and cannot be auto-fixed." ∨
       msg = "Text layer uses mixed fonts and cannot be auto-fixed.") := by
  refine ⟨?_, ?_, ?_⟩
  · obtain ⟨f, hf⟩ := Option.isSome_iff_exists.mp hsolid
    simp [hardcodedFillIssue, hfills, hsid, hf, hty]
  · intro hv i hi
    rw [traverseWith_def, if_pos]
    · exact List.mem_append_left _ (by simp [tokenRules, hi])
    · simp [visitGuard, hv, isSceneType, hty]
  · rcases hmx with hmx | ⟨l, hmx⟩
    · exact ⟨_, by simp [applyFix, hl, hlock, hty, mixedFontGuard, hmx], Or.inl rfl⟩
    · exact ⟨_, by simp [applyFix, hl, hlock, hty, mixedFontGuard, hmx], Or.inr rfl⟩

/-- A text node with the mixed-font sentinel and a hardcoded visible solid
fill (for the C6 witness). -/
def mixedText : Node :=
  Node.mk "4:1" "Mixed Text" NodeType.TEXT true false (some [pbRectFill]) ""
    FontRef.mixed (some 14) []

/-- Witness for C6 at a concrete input: `mixedText`. -/
theorem claim_C6_witness :
    hardcodedFillIssue mixedText = some
      { type := "Text/Colour", layer := "Mixed Text", nodeId := "4:1",
        detail := "Text uses hardcoded colour instead of design system token. Should use Functional/Carbon for text.",
        fixable := true } ∧
    (mixedText.visible = true →
      ∀ i, hardcodedFillIssue mixedText = some i →
        i ∈ traverseWith (tokenRules mockDesignSystem) mixedText) ∧
    ∃ msg, applyFix mockDesignSystem (fun i => if i == "4:1" then some mixedText else none)
        (fun _ => true) "4:1" "Text/Colour" =
        ({ status := FixStatus.error, message := msg }, NodeMutation.noMutation) ∧
      (msg = "Text layer uses mixed fonts (figma.mixed) and cannot be auto-fixed." ∨
       msg = "Text layer uses mixed fonts and cannot be auto-fixed.") :=
  claim_C6_mixed_font_text mockDesignSystem (fun i => if i == "4:1" then some mixedText else none)
    (fun _ => true) "4:1" mixedText [pbRectFill] rfl rfl rfl (Or.inl rfl) rfl rfl (by decide)

theorem colourTokenIssue_type (n : Node) (i : DesignIssue)
    (h : colourTokenIssue n = some i) : i.type = "Colour/Token" := by
  unfold colourTokenIssue at h
  repeat' split at h
  all_goals (cases h <;> rfl)

theorem buttonStyleIssueSimple_type (n : Node) (i : DesignIssue)
    (h : buttonStyleIssueSimple n = some i) : i.type = "Button/Style" := by
  unfold buttonStyleIssueSimple at h
  dsimp only [] at h
  repeat' split at h
  all_goals (cases h <;> rfl)

/-- Claim C7: for a text node whose numeric font size is 18 (approved size
14), the simpler implementation's analysis emits exactly one typography
issue, whose detail mentions both "18" and "14"; the simpler `applyFix`
(policy a) sets the font size to 14 and succeeds, while the token-aware
`applyFix` (policy b) refuses with an error recommending design-system text
styles — each implementation exhibits exactly one of the two policies. -/
theorem claim_C7_typography_size18 (cfg : DesignSystemConfig)
    (getNodeById : String → Option Node) (fontLoads : FontNameV → Bool)
    (nodeId : String) (n : Node) (f : FontNameV)
    (hty : n.ty = NodeType.TEXT) (hfs : n.fontSize = some 18)
    (hv : n.visible = true) (hch : n.children = [])
    (hl : getNodeById nodeId = some n) (hlock : n.locked = false)
    (hfn : n.fontName = FontRef.single f) (hload : fontLoads f = true) :
    (runAnalysisSimple [n]).filter (fun i => i.type == "Typography") =
      [ { type := "Typography", layer := n.name, nodeId := n.id,
          detail := "Uses non-standard font size (18px). Recommended size is 14px.",
          fixable := true } ] ∧
    (∃ a b, "Uses non-standard font size (18px). Recommended size is 14px." = a ++ "18" ++ b) ∧
    (∃ a b, "Uses non-standard font size (18px). Recommended size is 14px." = a ++ "14" ++ b) ∧
    applyFixSimple getNodeById fontLoads nodeId "Typography" =
      ({ status := FixStatus.success, message := "Set font size to 14px." },
       NodeMutation.setFontSize 14) ∧
    applyFix cfg getNodeById fontLoads nodeId "Typography" =
      ({ status := FixStatus.error,
         message := "Typography fixes should use design system text styles instead of hardcoded font sizes." },
       NodeMutation.noMutation) := by
  have htyp : typographyIssue n = some
      { type := "Typography", layer := n.name, nodeId := n.id,
        detail := "Uses non-standard font size (18px). Recommended size is 14px.",
        fixable := true } := by
    have h18 : toString (18 : ℚ) = "18" := by decide
    have hne : ((18 : ℚ) != APPROVED_FONT_SIZE) = true := by decide
    have h14 : toString APPROVED_FONT_SIZE = "14" := by decide
    simp [typographyIssue, hty, hfs, hne, h18, h14]
  refine ⟨?_, ⟨"Uses non-standard font size (", "px). Recommended size is 14px.", by decide⟩,
    ⟨"Uses non-standard font size (18px). Recommended size is ", "px.", by decide⟩, ?_, ?_⟩
  · rw [runAnalysisSimple, traverseListWith_cons, traverseListWith_nil, List.append_nil,
      traverseWith_def, if_pos (by simp [visitGuard, hv, isSceneType, hty] : visitGuard n = true),
      hch, traverseListWith_nil, List.append_nil]
    simp only [simpleRules, List.filter_append]
    rw [htyp]
    have hc : (colourTokenIssue n).toList.filter (fun i => i.type == "Typography") = [] := by
      rcases hco : colourTokenIssue n with _ | i
      · rfl
      · simp [List.filter, colourTokenIssue_type n i hco]
    have hb : (buttonStyleIssueSimple n).toList.filter (fun i => i.type == "Typography") = [] := by
      rcases hbo : buttonStyleIssueSimple n with _ | i
      · rfl
      · simp [List.filter, buttonStyleIssueSimple_type n i hbo]
    simp [hc, hb, List.filter]
  · simp only [applyFixSimple, hl, hlock, hty, mixedFontGuard, hfn, hload]
    simp [hlock]
    exact ⟨by decide, by decide⟩
  · simp [applyFix, hl, hlock, hty, mixedFontGuard, hfn, hload]

/-- A text node with font size 18 and a single loadable font (for the C7
witness). -/
def text18 : Node :=
  Node.mk "5:1" "Subtitle" NodeType.TEXT true false none ""
    (FontRef.single ⟨"Inter", "Regular"⟩) (some 18) []

/-- Witness for C7 at a concrete input: `text18`. -/
theorem claim_C7_witness :
    (runAnalysisSimple [text18]).filter (fun i => i.type == "Typography") =
      [ { type := "Typography", layer := "Subtitle", nodeId := "5:1",
          detail := "Uses non-standard font size (18px). Recommended size is 14px.",
          fixable := true } ] ∧
    (∃ a b, "Uses non-standard font size (18px). Recommended size is 14px." = a ++ "18" ++ b) ∧
    (∃ a b, "Uses non-standard font size (18px). Recommended size is 14px." = a ++ "14" ++ b) ∧
    applyFixSimple (fun i => if i == "5:1" then some text18 else none) (fun _ => true)
        "5:1" "Typography" =
      ({ status := FixStatus.success, message := "Set font size to 14px." },
       NodeMutation.setFontSize 14) ∧
    applyFix mockDesignSystem (fun i => if i == "5:1" then some text18 else none) (fun _ => true)
        "5:1" "Typography" =
      ({ status := FixStatus.error,
         message := "Typography fixes should use design system text styles instead of hardcoded font sizes." },
       NodeMutation.noMutation) :=
  claim_C7_typography_size18 mockDesignSystem
    (fun i => if i == "5:1" then some text18 else none) (fun _ => true) "5:1" text18
    ⟨"Inter", "Regular"⟩ rfl rfl rfl rfl rfl rfl rfl rfl

/-- Claim C8: the token loader is total over all its oracles (never throws);
a blank (or all-whitespace) credential goes directly to mock data with a
result independent of the remote oracle (no network fetch); a remote
rejection, or a settlement at or after the 5-second bound (timer wins the
race), falls back to mock data; and when the mock construction throws, the
local-document fallback runs, itself swallowing an error after `k` steps and
leaving the store in the partial state those first `k` steps reached. -/
theorem claim_C8_loader_fallback_chain :
    (∀ (mcpConfig : MCPConfig) (settleMs : ℕ) (remote : RemoteOutcome) (mockThrows : Bool)
       (lenv : LocalEnv) (store : DesignSystemConfig),
       jsTrim mcpConfig.figmaToken = "" →
       loadDesignSystemViaMCP mcpConfig settleMs remote mockThrows lenv store =
         loadMockDesignSystem mockThrows lenv store) ∧
    (∀ (mcpConfig : MCPConfig) (settleMs : ℕ) (remote : RemoteOutcome) (mockThrows : Bool)
       (lenv : LocalEnv) (store : DesignSystemConfig),
       jsTrim mcpConfig.figmaToken ≠ "" → API_TIMEOUT_MS ≤ settleMs →
       loadDesignSystemViaMCP mcpConfig settleMs remote mockThrows lenv store =
         loadMockDesignSystem mockThrows lenv store) ∧
    (∀ (mcpConfig : MCPConfig) (settleMs : ℕ) (mockThrows : Bool)
       (lenv : LocalEnv) (store : DesignSystemConfig),
       jsTrim mcpConfig.figmaToken ≠ "" →
       loadDesignSystemViaMCP mcpConfig settleMs RemoteOutcome.rejected mockThrows lenv store =
         loadMockDesignSystem mockThrows lenv store) ∧
    (∀ (lenv : LocalEnv) (store : DesignSystemConfig),
       loadMockDesignSystem true lenv store = loadLocalDesignSystem lenv store) ∧
    (∀ (steps : List (DesignSystemConfig → DesignSystemConfig)) (k : ℕ)
       (store : DesignSystemConfig),
       loadLocalDesignSystem ⟨steps, some k⟩ store = applySteps store (steps.take k)) := by
  refine ⟨?_, ?_, ?_, fun lenv store => rfl, fun steps k store => rfl⟩
  · intro mcpConfig settleMs remote mockThrows lenv store h
    simp [loadDesignSystemViaMCP, h]
  · intro mcpConfig settleMs remote mockThrows lenv store hne hto
    have h1 : (jsTrim mcpConfig.figmaToken == "") = false := beq_eq_false_iff_ne.mpr hne
    simp [loadDesignSystemViaMCP, h1, raceWithTimeout, hto]
  · intro mcpConfig settleMs mockThrows lenv store hne
    have h1 : (jsTrim mcpConfig.figmaToken == "") = false := beq_eq_false_iff_ne.mpr hne
    have h2 : raceWithTimeout settleMs RemoteOutcome.rejected = none := by
      unfold raceWithTimeout
      split <;> rfl
    simp [loadDesignSystemViaMCP, h1, h2]

/-- Witness for C8 at concrete inputs. The blank-credential conjunct is
applied with a remote oracle that would have resolved — the result still
comes from the mock path. -/
theorem claim_C8_witness :
    loadDesignSystemViaMCP defaultGlobalConfig 9999
        (RemoteOutcome.resolved (fun s => s)) false ⟨[], none⟩ DEFAULT_CONFIG =
      loadMockDesignSystem false ⟨[], none⟩ DEFAULT_CONFIG ∧
    loadDesignSystemViaMCP ⟨"tok", "key", "url"⟩ 5000
        (RemoteOutcome.resolved (fun s => s)) false ⟨[], none⟩ DEFAULT_CONFIG =
      loadMockDesignSystem false ⟨[], none⟩ DEFAULT_CONFIG ∧
    loadDesignSystemViaMCP ⟨"tok", "key", "url"⟩ 0 RemoteOutcome.rejected true
        ⟨[], none⟩ DEFAULT_CONFIG =
      loadMockDesignSystem true ⟨[], none⟩ DEFAULT_CONFIG ∧
    loadMockDesignSystem true ⟨[], none⟩ DEFAULT_CONFIG =
      loadLocalDesignSystem ⟨[], none⟩ DEFAULT_CONFIG ∧
    loadLocalDesignSystem ⟨[fun _ => mockDesignSystem, fun _ => DEFAULT_CONFIG], some 1⟩
        DEFAULT_CONFIG =
      applySteps DEFAULT_CONFIG ([fun _ => mockDesignSystem, fun _ => DEFAULT_CONFIG].take 1) :=
  ⟨claim_C8_loader_fallback_chain.1 defaultGlobalConfig 9999
      (RemoteOutcome.resolved (fun s => s)) false ⟨[], none⟩ DEFAULT_CONFIG (by decide),
   claim_C8_loader_fallback_chain.2.1 ⟨"tok", "key", "url"⟩ 5000
      (RemoteOutcome.resolved (fun s => s)) false ⟨[], none⟩ DEFAULT_CONFIG (by decide) (by decide),
   claim_C8_loader_fallback_chain.2.2.1 ⟨"tok", "key", "url"⟩ 0 true
      ⟨[], none⟩ DEFAULT_CONFIG (by decide),
   claim_C8_loader_fallback_chain.2.2.2.1 ⟨[], none⟩ DEFAULT_CONFIG,
   claim_C8_loader_fallback_chain.2.2.2.2 [fun _ => mockDesignSystem, fun _ => DEFAULT_CONFIG]
      1 DEFAULT_CONFIG⟩

/-- Counterexample to Claim C9 as stated: after a token-store load with an
empty credential (which reaches the mock data), the resulting store does NOT
contain the neutral "Carbon" colour token — the lookup under the key every
colour fix uses (`Functional/Carbon`) returns `none`. -/
theorem claim_C9_counterexample :
    (loadDesignSystemViaMCP defaultGlobalConfig 0 RemoteOutcome.rejected false ⟨[], none⟩
      DEFAULT_CONFIG).colourTokens.lookup "Functional/Carbon" = none := by
  decide

/-- Claim C9 (amended): after a token-store load with an empty credential the
store contains the primary-button colour token `Primary/Blue/600` but no
"Carbon" colour token; and every colour fix that looks up `Functional/Carbon`
(the text-colour fix and the generic colour-token fix), when that token is
absent from the store, falls back to the built-in default near-black
`(0.1, 0.1, 0.1)` and still succeeds rather than erroring. -/
theorem claim_C9_amended_carbon_fallback :
    (loadDesignSystemViaMCP defaultGlobalConfig 0 RemoteOutcome.rejected false ⟨[], none⟩
      DEFAULT_CONFIG).colourTokens.lookup "Primary/Blue/600" = some ⟨157, 220, 718⟩ ∧
    (loadDesignSystemViaMCP defaultGlobalConfig 0 RemoteOutcome.rejected false ⟨[], none⟩
      DEFAULT_CONFIG).colourTokens.lookup "Functional/Carbon" = none ∧
    (∀ (cfg : DesignSystemConfig) (getNodeById : String → Option Node)
       (fontLoads : FontNameV → Bool) (nodeId : String) (n : Node)
       (fills : List Paint) (f : FontNameV),
       cfg.colourTokens.lookup "Functional/Carbon" = none →
       getNodeById nodeId = some n → n.locked = false → n.ty = NodeType.TEXT →
       n.fontName = FontRef.single f → fontLoads f = true → n.fills = some fills →
       applyFix cfg getNodeById fontLoads nodeId "Text/Colour" =
         ({ status := FixStatus.success, message := "Applied Functional/Carbon colour to text." },
          NodeMutation.setFills [solidPaint ⟨100, 100, 100⟩])) ∧
    (∀ (cfg : DesignSystemConfig) (getNodeById : String → Option Node)
       (fontLoads : FontNameV → Bool) (nodeId : String) (n : Node) (fills : List Paint),
       cfg.colourTokens.lookup "Functional/Carbon" = none →
       getNodeById nodeId = some n → n.locked = false →
       fillableTypes.contains n.ty = true → n.ty ≠ NodeType.TEXT → n.ty ≠ NodeType.INSTANCE →
       n.fills = some fills →
       applyFix cfg getNodeById fontLoads nodeId "Colour/Token" =
         ({ status := FixStatus.success, message := "Applied Functional/Carbon colour fill." },
          NodeMutation.setFills [solidPaint ⟨100, 100, 100⟩])) := by
  refine ⟨by decide, by decide, ?_, ?_⟩
  · intro cfg getNodeById fontLoads nodeId n fills f hcarb hl hlock hty hfn hload hfills
    simp [applyFix, hl, hlock, hty, mixedFontGuard, hfn, hload, hfills, hcarb]
  · intro cfg getNodeById fontLoads nodeId n fills hcarb hl hlock hfill htext hinst hfills
    have ht : (n.ty == NodeType.TEXT) = false := beq_eq_false_iff_ne.mpr htext
    have hi : (n.ty == NodeType.INSTANCE) = false := beq_eq_false_iff_ne.mpr hinst
    have hmem : n.ty ∈ fillableTypes := by simpa using hfill
    simp [applyFix, hl, hlock, hmem, ht, hi, hfills, hcarb]

/-- A plain visible text node with a single loadable font and a hardcoded
fill (for the C9 witness). -/
def plainText : Node :=
  Node.mk "6:1" "Caption" NodeType.TEXT true false (some [pbRectFill]) ""
    (FontRef.single ⟨"Inter", "Regular"⟩) (some 14) []

/-- Witness for C9 (amended) at concrete inputs: the empty store (no Carbon
token), `plainText` for the text-colour fix and `pbRect` for the generic
colour fix. -/
theorem claim_C9_witness :
    applyFix DEFAULT_CONFIG (fun i => if i == "6:1" then some plainText else none)
        (fun _ => true) "6:1" "Text/Colour" =
      ({ status := FixStatus.success, message := "Applied Functional/Carbon colour to text." },
       NodeMutation.setFills [solidPaint ⟨100, 100, 100⟩]) ∧
    applyFix DEFAULT_CONFIG (fun i => if i == "1:1" then some pbRect else none)
        (fun _ => true) "1:1" "Colour/Token" =
      ({ status := FixStatus.success, message := "Applied Functional/Carbon colour fill." },
       NodeMutation.setFills [solidPaint ⟨100, 100, 100⟩]) :=
  ⟨claim_C9_amended_carbon_fallback.2.2.1 DEFAULT_CONFIG
      (fun i => if i == "6:1" then some plainText else none) (fun _ => true) "6:1" plainText
      [pbRectFill] ⟨"Inter", "Regular"⟩ rfl rfl rfl rfl rfl rfl rfl,
   claim_C9_amended_carbon_fallback.2.2.2 DEFAULT_CONFIG
      (fun i => if i == "1:1" then some pbRect else none) (fun _ => true) "1:1" pbRect
      [pbRectFill] rfl rfl rfl (by decide) (by decide) (by decide) rfl⟩

/-- Claim C10: in the token-aware implementation, when the store has no
entry under the primary-button colour key `Primary/Blue/600`, the
button-style rule flags every candidate node (rectangle named with
"button"/"btn", no fill-style reference) that has any visible solid fill,
regardless of the fill's actual colour, because the colour-match test is
false whenever the token is missing. -/
theorem claim_C10_missing_primary_token_flags_all (cfg : DesignSystemConfig) (n : Node)
    (fills : List Paint) (f : Paint)
    (hmiss : cfg.colourTokens.lookup "Primary/Blue/600" = none)
    (hname : (strIncludes (strToLower n.name) "button" ||
      strIncludes (strToLower n.name) "btn") = true)
    (hty : n.ty = NodeType.RECTANGLE)
    (hfills : n.fills = some fills) (hsid : n.fillStyleId = "")
    (hsolid : findVisibleSolid fills = some f) :
    buttonStyleIssue cfg n = some
      { type := "Button/Style", layer := n.name, nodeId := n.id,
        detail := "Button uses hardcoded colour. Must use Primary Button token (Indigo/600).",
        fixable := true } := by
  simp [buttonStyleIssue, hname, hty, hfills, hsid, hmiss, hsolid]

/-- A fill whose colour is exactly the primary `Primary/Blue/600` value, and
a candidate button rectangle carrying it (for the C10 witness: even this
exact colour is flagged when the token is missing from the store). -/
def exactBlueFill : Paint :=
  { type := PaintType.SOLID, color := ⟨157, 220, 718⟩, opacity := 1, visible := true,
    blendMode := "NORMAL" }

def exactBlueButton : Node :=
  Node.mk "7:1" "Login Button" NodeType.RECTANGLE true false (some [exactBlueFill]) ""
    (FontRef.single ⟨"Inter", "Regular"⟩) none []

/-- Witness for C10 at a concrete input: the empty store and a button whose
fill is exactly the primary colour — still flagged. -/
theorem claim_C10_witness :
    buttonStyleIssue DEFAULT_CONFIG exactBlueButton = some
      { type := "Button/Style", layer := "Login Button", nodeId := "7:1",
        detail := "Button uses hardcoded colour. Must use Primary Button token (Indigo/600).",
        fixable := true } :=
  claim_C10_missing_primary_token_flags_all DEFAULT_CONFIG exactBlueButton [exactBlueFill]
    exactBlueFill rfl (by decide) rfl rfl rfl rfl
